import Mathlib

/-!
Verification of the Asteroidino emulator core (`src/asteroidino/src/main.cpp`)
against its natural-language specification.

The development shallowly embeds the bus address decoder
(`cpu6502_read_callback` / `cpu6502_write_callback`), the PROM-sequenced
vector-generator state machine (`dvg_run_state_machine` and its eight
handlers), the direct-opcode interpreter (`dvg_execute`), and the
instruction-counting NMI pacer from `emulation_task`.

Modelling conventions:
* C integer fields are embedded as `Nat` (unsigned) or `Int` (signed
  `int16_t`), with explicit `% 2^w`, `&&&`-masks and a `toInt16` wrap
  applied exactly where the C code's type conversions truncate.
* Byte arrays (`ram`, `vector_ram`, the ROM images) are functions
  `Nat → Nat`; every array read is reduced `% 256`, reflecting `uint8_t`
  storage.  The ROM images themselves are external configuration data
  (the repository ships no ROM files), so they are fields of the state
  that theorems quantify over or instantiate concretely.
* The `vector_buffer` sample array is embedded as a `List` of
  `(x, y, intensity)` triples; appending at `count` is list append and
  the `VECT_POINTS_PER_FRAME = 1000` capacity check compares the length.
* `Serial` logging and debug counters have no observable effect on the
  emulation state and are omitted.
-/

namespace Asteroidino

set_option maxRecDepth 8192

/-- Wrap an integer to the value range of a C `int16_t` (two's complement). -/
def toInt16 (x : Int) : Int := (x + 32768) % 65536 - 32768

/-- The value a C `int16_t` shows when stored into a `uint16_t` slot. -/
def u16 (x : Int) : Nat := (x % 65536).toNat

/-- Clip a coordinate to the 10-bit screen bounds, as in `dvg_add_vector`
(`if (x < 0) x = 0; if (x > 1023) x = 1023;`). -/
def clip1023 (x : Int) : Int := if x < 0 then 0 else if 1023 < x then 1023 else x

/-- GPIO button snapshot (`struct buttons`). -/
structure Buttons where
  rotate_left : Bool
  rotate_right : Bool
  thrust : Bool
  hyperspace : Bool
  fire : Bool
  start : Bool
  coin : Bool
deriving DecidableEq

/-- The DVG state machine registers (`struct dvg_state`), together with the
sample buffer (`vector_buffer`) it appends to.  The subroutine stack is
modelled as unbounded storage `Nat → Nat` so that the in-bounds behaviour of
the 4-entry `stack[4]` array is a provable property rather than built in. -/
structure DvgState where
  pc : Nat
  x : Int
  y : Int
  xpos : Int
  ypos : Int
  scale : Nat
  intensity : Nat
  dvx : Nat
  dvy : Nat
  op : Nat
  data : Nat
  state_latch : Nat
  stack : Nat → Nat
  stack_ptr : Nat
  halt : Bool
  running : Bool
  samples : List (Nat × Nat × Nat)

/-- `dvg_add_vector`: move the beam by `(dx, dy)` and append the clipped
endpoint with the given intensity; a start-point sample with intensity 0 is
prepended when the buffer is empty; a full buffer (1000 entries,
`VECT_POINTS_PER_FRAME`) drops the vector. -/
def dvg_add_vector (dx dy : Int) (inten : Nat) (s : DvgState) : DvgState :=
  if 1000 ≤ s.samples.length then s
  else
    let s1 := if s.samples.length = 0 then
        { s with samples := [(u16 s.x, u16 s.y, 0)] }
      else s
    let nx := clip1023 (toInt16 (s1.x + dx))
    let ny := clip1023 (toInt16 (s1.y + dy))
    { s1 with x := nx, y := ny,
              samples := s1.samples ++ [(u16 nx, u16 ny, inten % 256)] }

/-- `dvg_process_vector`: sign-extend the 11-bit delta registers, scale them
by `(2 << scale) & 0x7ff`, arithmetically shift right by 8 and draw. -/
def dvg_process_vector (s : DvgState) : DvgState :=
  let scale_val : Int := ((2 <<< (s.scale % 256)) &&& 0x7ff : Nat)
  let dx0 : Int := if s.dvx &&& 0x400 ≠ 0 then toInt16 ((s.dvx ||| 0xF800 : Nat) : Int)
                   else (s.dvx &&& 0x3FF : Nat)
  let dy0 : Int := if s.dvy &&& 0x400 ≠ 0 then toInt16 ((s.dvy ||| 0xF800 : Nat) : Int)
                   else (s.dvy &&& 0x3FF : Nat)
  let dx := toInt16 (Int.fdiv (dx0 * scale_val) 256)
  let dy := toInt16 (Int.fdiv (dy0 * scale_val) 256)
  dvg_add_vector dx dy s.intensity s

/-- `dvg_state_addr`: 7-bit sequencer-PROM index from the state latch, with
the opcode's low 3 bits folded into bits 4-6 when opcode bit 3 is set. -/
def dvg_state_addr (s : DvgState) : Nat :=
  let addr := ((((s.state_latch >>> 4) ^^^ 1) &&& 1) <<< 7) ||| (s.state_latch &&& 0x0f)
  if s.op &&& 0x08 ≠ 0 then addr ||| ((s.op &&& 7) <<< 4) else addr

/-- `dvg_update_databus`: fetch one byte of the 16-bit word addressed by the
program counter from vector RAM (pc < 0x400) or vector ROM (pc < 0x800);
the low bit of the state latch selects the low/high byte. -/
def dvg_update_databus (vram vrom : Nat → Nat) (s : DvgState) : DvgState :=
  let byte_addr := (s.pc * 2 + (s.state_latch &&& 1)) % 65536
  if s.pc < 0x400 then
    { s with data := if byte_addr < 2048 then vram byte_addr % 256 else 0 }
  else if s.pc < 0x800 then
    let rom_offset := ((s.pc - 0x400) * 2 + (s.state_latch &&& 1)) % 65536
    { s with data := if rom_offset < 2048 then vrom rom_offset % 256 else 0 }
  else
    { s with data := 0 }

/-- Handler 0, DMAPUSH: when opcode bit 0 is clear, pre-increment the stack
pointer (`(sp + 1) & 0xf` on a `uint8_t`) and store the program counter at
slot `sp & 3`. -/
def dvg_handler_0 (s : DvgState) : DvgState :=
  if s.op &&& 1 = 0 then
    let sp := (s.stack_ptr + 1) % 16
    { s with stack_ptr := sp,
             stack := fun i => if i = (sp &&& 3) then s.pc else s.stack i }
  else s

/-- Handler 1, DMALD: with opcode bit 0 set, pop the stack into the program
counter (post-decrementing `(sp - 1) & 0xf`, which wraps on a `uint8_t`);
otherwise jump to the address already latched in `dvy` (no shift). -/
def dvg_handler_1 (s : DvgState) : DvgState :=
  if s.op &&& 1 = 1 then
    { s with pc := s.stack (s.stack_ptr &&& 3) % 65536,
             stack_ptr := (s.stack_ptr + 15) % 16 }
  else
    { s with pc := s.dvy % 65536 }

/-- Handler 2, GOSTROBE: draw the latched vector. -/
def dvg_handler_2 (s : DvgState) : DvgState := dvg_process_vector s

/-- Handler 3, HALTSTROBE: halt when opcode bit 0 is clear, latching the
final absolute position and emitting a zero-intensity terminal sample. -/
def dvg_handler_3 (s : DvgState) : DvgState :=
  let s := { s with halt := (s.op &&& 1 = 0 : Bool) }
  if s.op &&& 1 = 0 then
    let s := { s with xpos := ((s.dvx &&& 0xfff : Nat) : Int),
                      ypos := ((s.dvy &&& 0xfff : Nat) : Int) }
    dvg_add_vector 0 0 0 s
  else s

/-- Handler 7, LATCH3: latch the data byte's low nibble into the high bits of
`dvx` and its high nibble as the intensity. -/
def dvg_handler_7 (s : DvgState) : DvgState :=
  { s with dvx := (s.dvx &&& 0xff) ||| ((s.data &&& 0xf) <<< 8),
           intensity := (s.data >>> 4) % 256 }

/-- Handler 4, LATCH0: clear the low byte of `dvy` and, unless the opcode is
the sentinel 0xf (in which case handler 7 runs instead), merge the data byte
into it; advance the program counter. -/
def dvg_handler_4 (s : DvgState) : DvgState :=
  let s := { s with dvy := s.dvy &&& 0xf00 }
  let s := if s.op = 0xf then dvg_handler_7 s
           else { s with dvy := (s.dvy &&& 0xf00) ||| (s.data % 65536) }
  { s with pc := (s.pc + 1) % 65536 }

/-- Handler 5, LATCH1: merge the data byte's low nibble into the high bits of
`dvy` and latch its high nibble as the new opcode; when the new opcode is the
sentinel 0xf, mask both delta registers with 0xf00. -/
def dvg_handler_5 (s : DvgState) : DvgState :=
  let s := { s with dvy := (s.dvy &&& 0xff) ||| ((s.data &&& 0xf) <<< 8) }
  let s := { s with op := (s.data >>> 4) % 256 }
  if s.op = 0xf then
    { s with dvx := s.dvx &&& 0xf00, dvy := s.dvy &&& 0xf00 }
  else s

/-- Handler 6, LATCH2: clear the low byte of `dvx` and, unless the opcode is
the sentinel, merge the data byte into it; copy intensity into scale when
opcode bits 1 and 3 are both set; advance the program counter. -/
def dvg_handler_6 (s : DvgState) : DvgState :=
  let s := { s with dvx := s.dvx &&& 0xf00 }
  let s := if s.op ≠ 0xf then
             { s with dvx := (s.dvx &&& 0xf00) ||| (s.data % 65536) }
           else s
  let s := if (s.op >>> 1) &&& 1 = 1 ∧ (s.op >>> 3) &&& 1 = 1 then
             { s with scale := s.intensity }
           else s
  { s with pc := (s.pc + 1) % 65536 }

/-- The `switch (handler)` dispatch of `dvg_run_state_machine` (the default
arm of the C `switch` leaves the state unchanged). -/
def dvg_dispatch (n : Nat) (s : DvgState) : DvgState :=
  match n with
  | 0 => dvg_handler_0 s
  | 1 => dvg_handler_1 s
  | 2 => dvg_handler_2 s
  | 3 => dvg_handler_3 s
  | 4 => dvg_handler_4 s
  | 5 => dvg_handler_5 s
  | 6 => dvg_handler_6 s
  | 7 => dvg_handler_7 s
  | _ => s

/-- One iteration of the `dvg_run_state_machine` loop body: look up the
sequencer PROM, replace the low nibble of the state latch, and when the
strobe bit (bit 3) is set fetch the data byte and dispatch on the latch's
low 3 bits.

Modelled from the spec: the 128-entry sequencer PROM (`dvg_prom.h`,
`dvg_prom_read`) is static configuration data that is not part of the
repository (the ROM/PROM images are provisioned externally, spec section 6);
it is therefore taken as an arbitrary table `prom : Nat → Nat`, with reads
reduced to a byte. -/
def dvg_step (prom vram vrom : Nat → Nat) (s : DvgState) : DvgState :=
  let s1 := { s with
    state_latch := (s.state_latch &&& 0x10) ||| ((prom (dvg_state_addr s) % 256) &&& 0x0f) }
  if s1.state_latch &&& 0x08 ≠ 0 then
    dvg_dispatch (s1.state_latch &&& 0x07) (dvg_update_databus vram vrom s1)
  else s1

/-- The `while (!halt && max_iterations-- > 0 && cycles < 10000)` loop:
`fuel` is the `max_iterations` budget (1000 at the call site) and `cyc` the
`cycles` counter (every handler returns 0, so `cycles` grows by exactly 1
per iteration). -/
def dvg_run_loop (prom vram vrom : Nat → Nat) : Nat → Nat → DvgState → DvgState
  | 0, _, s => s
  | fuel + 1, cyc, s =>
    if s.halt then s
    else if 10000 ≤ cyc then s
    else dvg_run_loop prom vram vrom fuel (cyc + 1) (dvg_step prom vram vrom s)

/-- Pure iteration of the loop body, stopping at a halt: the reference
against which the bounded run is measured. -/
def dvg_iter (prom vram vrom : Nat → Nat) : Nat → DvgState → DvgState
  | 0, s => s
  | n + 1, s => if s.halt then s else dvg_iter prom vram vrom n (dvg_step prom vram vrom s)

/-- `dvg_run_state_machine`: do nothing unless running; otherwise clear the
halt flag, run the bounded loop, and clear the running flag. -/
def dvg_run_state_machine (prom vram vrom : Nat → Nat) (s : DvgState) : DvgState :=
  if s.running = false then s
  else { dvg_run_loop prom vram vrom 1000 0 { s with halt := false } with running := false }

/-- Full emulation state visible to the CPU bus callbacks: the writable
memories, the externally provisioned ROM images (program PROM chips
`035145-04e.ef2` / `035144-04e.h2` / `035143-02.j2` and the vector ROM,
modelled as arbitrary byte tables since the repository ships no ROM data),
the input snapshot, and the DVG machine. -/
structure EmuState where
  ram : Nat → Nat
  vram : Nat → Nat
  vrom : Nat → Nat
  prom0 : Nat → Nat
  prom1 : Nat → Nat
  prom2 : Nat → Nat
  buttons : Buttons
  dip_switches : Nat
  total_cpu_cycles : Nat
  game_runtime : Nat
  dvg : DvgState

/-- The IN0 byte assembled by `cpu6502_read_callback` for 0x2000-0x2007:
hyperspace (bit 3), fire (bit 4), the cycle-count-derived 3 kHz clock
(bit 1) and the DVG busy flag (bit 2). -/
def in0_byte (st : EmuState) : Nat :=
  let b := 0
  let b := if st.buttons.hyperspace then b ||| 0x08 else b
  let b := if st.buttons.fire then b ||| 0x10 else b
  let b := if st.total_cpu_cycles &&& 0x100 ≠ 0 then b ||| 0x02 else b
  if st.dvg.running = true ∧ st.dvg.halt = false then b ||| 0x04 else b

/-- The IN1 byte for 0x2400-0x2407: the wall-clock auto-coin/auto-start
windows (`millis()` since first read, modelled as the `game_runtime` state
field) OR-ed with the button snapshot. -/
def in1_byte (st : EmuState) : Nat :=
  let b := 0
  let b := if 2000 ≤ st.game_runtime ∧ st.game_runtime < 4000 then b ||| 0x01 else b
  let b := if 4000 ≤ st.game_runtime ∧ st.game_runtime < 6000 then b ||| 0x08 else b
  let b := if st.buttons.coin then b ||| 0x01 else b
  let b := if st.buttons.start then b ||| 0x08 else b
  let b := if st.buttons.thrust then b ||| 0x20 else b
  let b := if st.buttons.rotate_right then b ||| 0x40 else b
  if st.buttons.rotate_left then b ||| 0x80 else b

/-- The 6 KB program-ROM image dispatch (lines 649-662): offset 0x0000-0x07FF
is PROM0, 0x0800-0x0FFF is PROM1, 0x1000-0x17FF is PROM2. -/
def asteroid_rom_6k (st : EmuState) (off : Nat) : Nat :=
  if 0x1000 ≤ off then st.prom2 (off - 0x1000) % 256
  else if 0x0800 ≤ off then st.prom1 (off - 0x0800) % 256
  else st.prom0 off % 256

/-- `cpu6502_read_callback`: the bus address decoder for reads.  RAM,
vector RAM, vector ROM, the bit-select input ports IN0/IN1, the DIP-switch
port, the mirrored 6 KB program-ROM window (with the 0xF800-0xFFFF vector
page pinned to PROM2), and the 0xFF open-bus fallback. -/
def cpu6502_read_callback (st : EmuState) (addr : Nat) : Nat :=
  if addr < 0x1000 then st.ram addr % 256
  else if 0x4000 ≤ addr ∧ addr < 0x4800 then st.vram (addr - 0x4000) % 256
  else if 0x5000 ≤ addr ∧ addr < 0x5800 then st.vrom (addr - 0x5000) % 256
  else if 0x2000 ≤ addr ∧ addr < 0x2008 then
    let bit_value := (in0_byte st >>> (addr &&& 0x07)) &&& 1
    if bit_value = 1 then 0x80 else 0x7F
  else if 0x2400 ≤ addr ∧ addr < 0x2408 then
    let bit_value := (in1_byte st >>> (addr &&& 0x07)) &&& 1
    if bit_value = 1 then 0x80 else 0x7F
  else if 0x2800 ≤ addr ∧ addr < 0x2804 then
    let bit_pair := (st.dip_switches >>> ((addr &&& 0x03) * 2)) &&& 0x03
    0xFC ||| bit_pair
  else if 0x6800 ≤ addr then
    if 0xF800 ≤ addr then st.prom2 (addr - 0xF800) % 256
    else asteroid_rom_6k st ((addr - 0x6800) % 0x1800)
  else 0xFF

/-- `cpu6502_write_callback`: RAM writes (with the deliberate ZP[0x5B]
frame-throttle workaround that stores 0 whenever a value of 4 or more is
written), vector-RAM writes, the DVG GO port 0x3000 (reset the machine
registers, clear the sample buffer and run the state machine), and the
accepted-but-ignored output/watchdog/sound ports; all other addresses
(including every ROM address) are ignored. -/
def cpu6502_write_callback (prom : Nat → Nat) (st : EmuState) (addr v : Nat) : EmuState :=
  if addr < 0x1000 then
    let v := if addr = 0x5B ∧ 4 ≤ v then 0 else v
    { st with ram := fun i => if i = addr then v % 256 else st.ram i }
  else if 0x4000 ≤ addr ∧ addr < 0x4800 then
    { st with vram := fun i => if i = addr - 0x4000 then v % 256 else st.vram i }
  else if addr = 0x3000 then
    let d := { st.dvg with
      pc := (v &&& 0x0F) <<< 8,
      running := true, halt := false, stack_ptr := 0,
      state_latch := 0, op := 0, data := 0, dvx := 0, dvy := 0,
      samples := [] }
    { st with dvg := dvg_run_state_machine prom st.vram st.vrom d }
  else if addr = 0x3200 then st
  else if addr = 0x3400 then st
  else if addr = 0x3600 then st
  else if addr = 0x3A00 then st
  else if 0x3C00 ≤ addr ∧ addr < 0x3C08 then st
  else if addr = 0x3E00 then st
  else st

/-- The MAME-approximated scale lookup table (`scale_table[16]`), indexed
modulo its length. -/
def scale_table (i : Nat) : Nat :=
  [0, 1, 2, 3, 4, 5, 6, 8, 10, 12, 16, 20, 24, 32, 48, 64].getD (i % 16) 0

/-- `dvg_reset`: initial beam state for the direct-opcode interpreter. -/
def dvg_reset (s : DvgState) : DvgState :=
  { s with pc := 0, x := 512, y := 512, scale := 0, intensity := 7,
           stack_ptr := 0, halt := false }

/-- `dvg_add_point`: append one point, converted from DVG coordinates to
12-bit DAC coordinates and 8-bit intensity (used only by `dvg_execute`). -/
def dvg_add_point (x y : Int) (inten : Nat) (s : DvgState) : DvgState :=
  if 1000 ≤ s.samples.length then s
  else
    let dac_x := Int.tdiv (x * 4095) 1023
    let dac_y := Int.tdiv (y * 4095) 1023
    let dac_x := if dac_x < 0 then 0 else if 4095 < dac_x then 4095 else dac_x
    let dac_y := if dac_y < 0 then 0 else if 4095 < dac_y then 4095 else dac_y
    { s with samples := s.samples ++ [(u16 dac_x, u16 dac_y, inten % 256 * 255 / 15 % 256)] }

/-- `dvg_read_word`: 16-bit little-endian word fetch from the DVG address
space (0x000-0x7FF vector RAM, 0x800-0xFFF vector ROM), with the source's
off-by-one safety guards. -/
def dvg_read_word (vram vrom : Nat → Nat) (addr : Nat) : Nat :=
  if addr < 0x800 then
    if 0x7FF ≤ addr then 0
    else ((vram (addr + 1) % 256) <<< 8) ||| (vram addr % 256)
  else
    let rom_addr := addr - 0x800
    if 0x7FF ≤ rom_addr then 0
    else ((vrom (rom_addr + 1) % 256) <<< 8) ||| (vrom rom_addr % 256)

/-- Sign extension of a 2-bit field as in the VCTR arm of `dvg_execute`
(`if (dy & 0x02) dy |= 0xFFFC;` on an `int16_t`). -/
def signExtend2 (v : Nat) : Int :=
  if v &&& 0x02 ≠ 0 then toInt16 ((v ||| 0xFFFC : Nat) : Int) else (v : Int)

/-- Sign extension of a 3-bit field as in the SVEC arm of `dvg_execute`. -/
def signExtend3 (v : Nat) : Int :=
  if v &&& 0x04 ≠ 0 then toInt16 ((v ||| 0xFFF8 : Nat) : Int) else (v : Int)

/-- One VCTR line: emit `steps + 1` interpolated points
(`x0 + (dx * i) / steps`, C truncating division). -/
def dvg_exec_line (x0 y0 dx dy : Int) (brightness : Nat) (steps : Nat) :
    Nat → DvgState → DvgState
  | 0, s => dvg_add_point x0 y0 brightness s
  | i + 1, s =>
    let s := dvg_exec_line x0 y0 dx dy brightness steps i s
    dvg_add_point (toInt16 (x0 + Int.tdiv (dx * (i + 1)) steps))
                  (toInt16 (y0 + Int.tdiv (dy * (i + 1)) steps)) brightness s

/-- One opcode of the direct-opcode interpreter `dvg_execute` (the word has
already been fetched and the program counter advanced past it). -/
def dvg_exec_op (vram vrom : Nat → Nat) (opcode : Nat) (s : DvgState) : DvgState :=
  let op := (opcode >>> 12) &&& 0x0F
  if op < 8 then
    -- VCTR
    let dy := signExtend2 (opcode &&& 0x03)
    let dx := signExtend2 ((opcode >>> 2) &&& 0x03)
    let brightness := (opcode >>> 4) &&& 0x0F
    let len := (opcode >>> 8) &&& 0x0F
    let scale : Int := scale_table (s.scale % 256)
    let dx := toInt16 (Int.fdiv (dx * len * scale) 16)
    let dy := toInt16 (Int.fdiv (dy * len * scale) 16)
    let x0 := s.x
    let y0 := s.y
    let x1 := toInt16 (x0 + dx)
    let y1 := toInt16 (y0 + dy)
    let steps := (max dx.natAbs dy.natAbs) / 4
    let steps := if steps < 1 then 1 else if 20 < steps then 20 else steps
    let s := dvg_exec_line x0 y0 dx dy brightness steps steps s
    { s with x := x1, y := y1 }
  else if op = 0x8 ∨ op = 0x9 then
    -- LABS
    let next := dvg_read_word vram vrom s.pc
    let s := { s with pc := (s.pc + 2) % 65536 }
    { s with y := ((opcode &&& 0x03FF : Nat) : Int), x := ((next &&& 0x03FF : Nat) : Int) }
  else if op = 0xA then
    -- JSRL
    let target := opcode &&& 0x0FFF
    let s := if s.stack_ptr < 4 then
        { s with stack := fun i => if i = s.stack_ptr then s.pc else s.stack i,
                 stack_ptr := s.stack_ptr + 1 }
      else s
    { s with pc := target }
  else if op = 0xB then
    { s with halt := true }
  else if op = 0xC then
    -- RTSL
    if 0 < s.stack_ptr then
      { s with stack_ptr := s.stack_ptr - 1, pc := s.stack (s.stack_ptr - 1) % 65536 }
    else { s with halt := true }
  else if op = 0xD then
    { s with pc := opcode &&& 0x0FFF }
  else
    -- SVEC
    let dy := signExtend3 (opcode &&& 0x07)
    let dx := signExtend3 ((opcode >>> 8) &&& 0x07)
    let brightness := (opcode >>> 4) &&& 0x0F
    let scale : Int := scale_table (s.scale % 256)
    let dx := toInt16 (Int.fdiv (dx * scale) 2)
    let dy := toInt16 (Int.fdiv (dy * scale) 2)
    let x1 := toInt16 (s.x + dx)
    let y1 := toInt16 (s.y + dy)
    let s := dvg_add_point s.x s.y brightness s
    let s := dvg_add_point x1 y1 brightness s
    { s with x := x1, y := y1 }

/-- The `while (!halt && max_ops-- > 0)` loop of `dvg_execute`. -/
def dvg_exec_loop (vram vrom : Nat → Nat) : Nat → DvgState → DvgState
  | 0, s => s
  | fuel + 1, s =>
    if s.halt then s
    else
      let opcode := dvg_read_word vram vrom s.pc
      let s := { s with pc := (s.pc + 2) % 65536 }
      dvg_exec_loop vram vrom fuel (dvg_exec_op vram vrom opcode s)

/-- `dvg_execute`: the direct-opcode interpreter; reset the beam state,
clear the sample buffer, and run for at most 10000 opcodes. -/
def dvg_execute (vram vrom : Nat → Nat) (s : DvgState) : DvgState :=
  let s := dvg_reset s
  let s := { s with samples := [] }
  dvg_exec_loop vram vrom 10000 s

/-- Interrupt-pacer state from `emulation_task`: the per-NMI instruction
counter, whether the NMI line is asserted, and the release counter. -/
structure PacerState where
  instruction_count : Nat
  nmi_active : Bool
  nmi_release_count : Nat
deriving DecidableEq

/-- The pacer as it starts in `emulation_task`. -/
def pacerInit : PacerState := ⟨0, false, 0⟩

/-- One iteration of the `emulation_task` loop, restricted to the NMI pacer
(the CPU single-step itself is the external collaborator): count the
instruction, assert NMI when the count reaches `INSTRUCTIONS_PER_NMI = 300`
(resetting the count), and, while asserted, bump the release counter and
deassert once it reaches 3.  Returns (state, asserted, deasserted). -/
def pacer_step (s : PacerState) : PacerState × Bool × Bool :=
  let s := { s with instruction_count := s.instruction_count + 1 }
  let p := if s.nmi_active = false ∧ 300 ≤ s.instruction_count then
      ({ s with nmi_active := true, nmi_release_count := 0, instruction_count := 0 }, true)
    else (s, false)
  let s := p.1
  if s.nmi_active then
    let s := { s with nmi_release_count := s.nmi_release_count + 1 }
    if 3 ≤ s.nmi_release_count then
      ({ s with nmi_active := false }, p.2, true)
    else (s, p.2, false)
  else (s, p.2, false)

/-- The pacer state after `n` CPU steps. -/
def pacer_run : Nat → PacerState
  | 0 => pacerInit
  | n + 1 => (pacer_step (pacer_run n)).1

/-- Whether the (m+1)-th CPU step asserts the NMI line. -/
def pacer_asserts (m : Nat) : Bool := (pacer_step (pacer_run m)).2.1

/-- Whether the (m+1)-th CPU step deasserts the NMI line. -/
def pacer_deasserts (m : Nat) : Bool := (pacer_step (pacer_run m)).2.2

/-- Number of NMI assertions during the first `n` CPU steps. -/
def pacer_assert_count (n : Nat) : Nat :=
  (List.range n).countP (fun m => pacer_asserts m)

/-! ### Concrete instances and scenario definitions -/

/-- The all-zero byte table (used to instantiate external ROM/PROM images). -/
def zeroBytes : Nat → Nat := fun _ => 0

/-- A sequencer-PROM table whose every entry requests the halt-strobe handler
(nibble 0xb: strobe bit set, handler 3). -/
def promHalt : Nat → Nat := fun _ => 0x0b

/-- No buttons pressed. -/
def buttons0 : Buttons := ⟨false, false, false, false, false, false, false⟩

/-- DVG state as `setup()` leaves it: zeroed registers, beam centred at
(512, 512), halted and not running. -/
def dvg0 : DvgState :=
  ⟨0, 512, 512, 0, 0, 0, 0, 0, 0, 0, 0, 0, fun _ => 0, 0, true, false, []⟩

/-- A started DVG machine used as the common initial state when comparing the
two interpreters: centred beam, default intensity 7, running. -/
def dvg_init : DvgState := { dvg0 with halt := false, running := true, intensity := 7 }

/-- Baseline emulator state: zeroed memories and ROM images, no buttons,
MAME-default DIP switches 0x84. -/
def emu0 : EmuState :=
  ⟨zeroBytes, zeroBytes, zeroBytes, zeroBytes, zeroBytes, zeroBytes,
   buttons0, 0x84, 0, 0, dvg0⟩

/-- Emulator state with distinguishable program-ROM chips: PROM0 reads 0x11,
PROM2 reads 0x22 everywhere. -/
def stC1 : EmuState := { emu0 with prom0 := fun _ => 0x11, prom2 := fun _ => 0x22 }

/-- Emulator state with the hyperspace button held. -/
def stC8 : EmuState := { emu0 with buttons := { buttons0 with hyperspace := true } }

/-- Vector memory holding an SVEC with zero deltas and full brightness
(word 0xE0F0 at address 0, little-endian) followed by a HALT word 0xB000:
a program on which the two interpreters visibly disagree. -/
def vramC4 : Nat → Nat := fun a =>
  if a = 0 then 0xF0 else if a = 1 then 0xE0
  else if a = 2 then 0x00 else if a = 3 then 0xB0 else 0

/-- One subroutine call at the handler level: handler 0 pushes the current
program counter (the address of the instruction after the call, since the
operand latches have already advanced it), the latched target sits in `dvy`,
and handler 1 (opcode bit 0 clear) jumps to it. -/
def dvg_call_step (s : DvgState) (t : Nat) : DvgState :=
  dvg_handler_1 { dvg_handler_0 s with dvy := t }

/-- A machine about to execute a subroutine call at pc = 0x100 with an empty
stack (opcode 0x4 = JSRL, bit 0 clear). -/
def sC6 : DvgState := { dvg0 with pc := 0x100, op := 0x4, stack_ptr := 0 }

/-- `sC6` after its first (within-capacity) subroutine call to 0x200. -/
def sC6_1 : DvgState := dvg_call_step sC6 0x200

/-- `sC6` after five nested subroutine calls - one more than the stack
capacity of 4. -/
def sC6_5 : DvgState :=
  dvg_call_step (dvg_call_step (dvg_call_step (dvg_call_step sC6_1 0x300) 0x400) 0x500) 0x600

/-- A machine about to push a subroutine return address: pc = 0x123, JSRL
opcode latched, empty stack. -/
def sC5 : DvgState := { dvg0 with pc := 0x123, op := 0x4, dvy := 0x200 }

/-- `sC5` after the call (push + jump), with the RTSL opcode 0x5 latched for
the immediately following return. -/
def mC5 : DvgState := { dvg_handler_1 (dvg_handler_0 sC5) with op := 0x5 }

/-- A DVG state with the sentinel-triggering data byte 0xff fetched and all
high bits of the X-delta register set. -/
def sC7 : DvgState := { dvg0 with dvx := 0xfff, dvy := 0x0ab, data := 0xff }

/-- The DVG register state installed by the GO-port write (`addr = 0x3000`):
program counter from the command value's low nibble, cleared registers and
sample buffer, running. -/
def dvg_go_init (st : EmuState) (v : Nat) : DvgState :=
  { st.dvg with
      pc := (v &&& 0x0F) <<< 8,
      running := true,
      halt := false,
      stack_ptr := 0,
      state_latch := 0,
      op := 0,
      data := 0,
      dvx := 0,
      dvy := 0,
      samples := [] }

/-- Invariant of the PROM-machine sample buffer: when non-empty, it starts
with the zero-intensity start-point sample and has at least two entries
(`dvg_add_vector` always appends the endpoint right after creating the start
point). -/
def samplesOk : List (Nat × Nat × Nat) → Prop
  | [] => True
  | p :: t => p.2.2 = 0 ∧ t ≠ []

/-- Closed form of the pacer state after `n` CPU steps: counting up during
the first period; in later periods the residue `n % 300` determines the
phase (just asserted / one step in / released). -/
def pacerExpected (n : Nat) : PacerState :=
  if n < 300 then ⟨n, false, 0⟩
  else if n % 300 = 0 then ⟨0, true, 1⟩
  else if n % 300 = 1 then ⟨1, true, 2⟩
  else ⟨n % 300, false, 3⟩

/-! ### Lemmas: sample-buffer invariant -/

theorem samplesOk_length (l : List (Nat × Nat × Nat)) (h : samplesOk l) :
    l.length ≠ 1 := by
  match l with
  | [] => simp
  | p :: t =>
    rcases h with ⟨-, ht⟩
    simpa using fun h1 => ht (List.length_eq_zero.mp h1)

theorem samplesOk_add_vector (dx dy : Int) (i : Nat) (s : DvgState)
    (h : samplesOk s.samples) : samplesOk (dvg_add_vector dx dy i s).samples := by
  unfold dvg_add_vector
  split
  · exact h
  · match hs : s.samples with
    | [] => simp [hs, samplesOk]
    | p :: t =>
      rcases hs ▸ h with ⟨hp, ht⟩
      simp [hs, samplesOk, hp, ht]

theorem samplesOk_process_vector (s : DvgState) (h : samplesOk s.samples) :
    samplesOk (dvg_process_vector s).samples := by
  unfold dvg_process_vector
  exact samplesOk_add_vector _ _ _ _ h

theorem handler_0_samples (s : DvgState) : (dvg_handler_0 s).samples = s.samples := by
  simp only [dvg_handler_0]; split <;> rfl

theorem handler_1_samples (s : DvgState) : (dvg_handler_1 s).samples = s.samples := by
  simp only [dvg_handler_1]; split <;> rfl

theorem handler_4_samples (s : DvgState) : (dvg_handler_4 s).samples = s.samples := by
  simp only [dvg_handler_4, dvg_handler_7]; split <;> rfl

theorem handler_5_samples (s : DvgState) : (dvg_handler_5 s).samples = s.samples := by
  simp only [dvg_handler_5]; split <;> rfl

theorem handler_6_samples (s : DvgState) : (dvg_handler_6 s).samples = s.samples := by
  simp only [dvg_handler_6]; split <;> split <;> rfl

theorem handler_7_samples (s : DvgState) : (dvg_handler_7 s).samples = s.samples := rfl

theorem databus_samples (vram vrom : Nat → Nat) (s : DvgState) :
    (dvg_update_databus vram vrom s).samples = s.samples := by
  simp only [dvg_update_databus]; split <;> (try split) <;> rfl

theorem samplesOk_handler_3 (s : DvgState) (h : samplesOk s.samples) :
    samplesOk (dvg_handler_3 s).samples := by
  simp only [dvg_handler_3]
  split
  · exact samplesOk_add_vector _ _ _ _ h
  · exact h

theorem samplesOk_dispatch (n : Nat) (s : DvgState) (h : samplesOk s.samples) :
    samplesOk (dvg_dispatch n s).samples := by
  unfold dvg_dispatch
  split
  · rw [handler_0_samples]; exact h
  · rw [handler_1_samples]; exact h
  · exact samplesOk_process_vector s h
  · exact samplesOk_handler_3 s h
  · rw [handler_4_samples]; exact h
  · rw [handler_5_samples]; exact h
  · rw [handler_6_samples]; exact h
  · rw [handler_7_samples]; exact h
  · exact h

theorem samplesOk_step (prom vram vrom : Nat → Nat) (s : DvgState)
    (h : samplesOk s.samples) : samplesOk (dvg_step prom vram vrom s).samples := by
  simp only [dvg_step]
  split
  · apply samplesOk_dispatch
    rw [databus_samples]
    exact h
  · exact h

theorem samplesOk_run_loop (prom vram vrom : Nat → Nat) (fuel cyc : Nat)
    (s : DvgState) (h : samplesOk s.samples) :
    samplesOk (dvg_run_loop prom vram vrom fuel cyc s).samples := by
  induction fuel generalizing cyc s with
  | zero => exact h
  | succ n ih =>
    simp only [dvg_run_loop]
    split
    · exact h
    · split
      · exact h
      · exact ih _ _ (samplesOk_step prom vram vrom s h)

theorem running_update_samples (s : DvgState) :
    (({ s with running := false } : DvgState)).samples = s.samples := rfl

theorem samplesOk_run (prom vram vrom : Nat → Nat) (s : DvgState)
    (h : samplesOk s.samples) :
    samplesOk (dvg_run_state_machine prom vram vrom s).samples := by
  unfold dvg_run_state_machine
  split
  · exact h
  · rw [running_update_samples]
    exact samplesOk_run_loop prom vram vrom 1000 0 _ h

/-! ### Lemmas: the bounded loop is plain iteration of the step -/

theorem run_loop_eq_iter (prom vram vrom : Nat → Nat) (fuel cyc : Nat)
    (s : DvgState) (h : cyc + fuel ≤ 10000) :
    dvg_run_loop prom vram vrom fuel cyc s = dvg_iter prom vram vrom fuel s := by
  induction fuel generalizing cyc s with
  | zero => rfl
  | succ n ih =>
    simp only [dvg_run_loop, dvg_iter]
    split
    · rfl
    · rw [if_neg (by omega)]
      exact ih (cyc + 1) _ (by omega)

/-! ### Lemmas: the subroutine stack stays inside its four slots -/

theorem handler_0_stack_high (s : DvgState) (j : Nat) (hj : 4 ≤ j) :
    (dvg_handler_0 s).stack j = s.stack j := by
  simp only [dvg_handler_0]
  split
  · simp only
    rw [if_neg]
    have : ((s.stack_ptr + 1) % 16) &&& 3 < 4 := Nat.lt_succ_of_le (Nat.and_le_right ..)
    omega
  · rfl

theorem handler_1_stack (s : DvgState) : (dvg_handler_1 s).stack = s.stack := by
  simp only [dvg_handler_1]; split <;> rfl

theorem add_vector_stack (dx dy : Int) (i : Nat) (s : DvgState) :
    (dvg_add_vector dx dy i s).stack = s.stack := by
  simp only [dvg_add_vector]; split <;> (try split) <;> rfl

theorem handler_2_stack (s : DvgState) : (dvg_handler_2 s).stack = s.stack := by
  simp only [dvg_handler_2, dvg_process_vector]
  rw [add_vector_stack]

theorem handler_3_stack (s : DvgState) : (dvg_handler_3 s).stack = s.stack := by
  simp only [dvg_handler_3]
  split
  · rw [add_vector_stack]
  · rfl

theorem handler_4_stack (s : DvgState) : (dvg_handler_4 s).stack = s.stack := by
  simp only [dvg_handler_4, dvg_handler_7]; split <;> rfl

theorem handler_5_stack (s : DvgState) : (dvg_handler_5 s).stack = s.stack := by
  simp only [dvg_handler_5]; split <;> rfl

theorem handler_6_stack (s : DvgState) : (dvg_handler_6 s).stack = s.stack := by
  simp only [dvg_handler_6]; split <;> split <;> rfl

theorem handler_7_stack (s : DvgState) : (dvg_handler_7 s).stack = s.stack := rfl

theorem databus_stack (vram vrom : Nat → Nat) (s : DvgState) :
    (dvg_update_databus vram vrom s).stack = s.stack := by
  simp only [dvg_update_databus]; split <;> (try split) <;> rfl

theorem dispatch_stack_high (n : Nat) (s : DvgState) (j : Nat) (hj : 4 ≤ j) :
    (dvg_dispatch n s).stack j = s.stack j := by
  unfold dvg_dispatch
  split
  · exact handler_0_stack_high s j hj
  · rw [handler_1_stack]
  · rw [handler_2_stack]
  · rw [handler_3_stack]
  · rw [handler_4_stack]
  · rw [handler_5_stack]
  · rw [handler_6_stack]
  · rw [handler_7_stack]
  · rfl

theorem step_stack_high (prom vram vrom : Nat → Nat) (s : DvgState) (j : Nat)
    (hj : 4 ≤ j) : (dvg_step prom vram vrom s).stack j = s.stack j := by
  simp only [dvg_step]
  split
  · rw [dispatch_stack_high _ _ _ hj, databus_stack]
  · rfl

theorem iter_stack_high (prom vram vrom : Nat → Nat) (n : Nat) (s : DvgState)
    (j : Nat) (hj : 4 ≤ j) :
    (dvg_iter prom vram vrom n s).stack j = s.stack j := by
  induction n generalizing s with
  | zero => rfl
  | succ m ih =>
    simp only [dvg_iter]
    split
    · rfl
    · rw [ih _, step_stack_high _ _ _ _ _ hj]

theorem run_loop_stack_high (prom vram vrom : Nat → Nat) (fuel cyc : Nat)
    (s : DvgState) (j : Nat) (hj : 4 ≤ j) :
    (dvg_run_loop prom vram vrom fuel cyc s).stack j = s.stack j := by
  induction fuel generalizing cyc s with
  | zero => rfl
  | succ m ih =>
    simp only [dvg_run_loop]
    split
    · rfl
    · split
      · rfl
      · rw [ih _ _, step_stack_high _ _ _ _ _ hj]

theorem running_update_stack (s : DvgState) :
    (({ s with running := false } : DvgState)).stack = s.stack := rfl

theorem run_stack_high (prom vram vrom : Nat → Nat) (s : DvgState) (j : Nat)
    (hj : 4 ≤ j) :
    (dvg_run_state_machine prom vram vrom s).stack j = s.stack j := by
  unfold dvg_run_state_machine
  split
  · rfl
  · rw [running_update_stack]
    exact run_loop_stack_high prom vram vrom 1000 0 _ j hj

/-! ### Lemmas: interrupt pacer closed form -/

theorem pacer_step_eval (a c : Nat) (b : Bool) :
    pacer_step ⟨a, b, c⟩ =
      (if b = true then
        (if 3 ≤ c + 1 then (⟨a + 1, false, c + 1⟩, false, true)
         else (⟨a + 1, true, c + 1⟩, false, false))
      else if 300 ≤ a + 1 then (⟨0, true, 1⟩, true, false)
      else (⟨a + 1, false, c⟩, false, false)) := by
  cases b
  · simp only [pacer_step]
    by_cases h : 300 ≤ a + 1
    · simp [h]
    · simp [h]
  · simp only [pacer_step]
    by_cases h : 3 ≤ c + 1
    · simp [h]
    · simp [h]

theorem pacer_step_expected (n : Nat) :
    pacer_step (pacerExpected n) =
      (pacerExpected (n + 1),
       decide ((n + 1) % 300 = 0),
       decide ((n + 1) % 300 = 2 ∧ 300 < n + 1)) := by
  rcases Nat.lt_or_ge n 299 with hA | h299
  · -- inside the first period, no assert yet
    have hEn : pacerExpected n = ⟨n, false, 0⟩ := by
      unfold pacerExpected; rw [if_pos (by omega)]
    have hEn1 : pacerExpected (n + 1) = ⟨n + 1, false, 0⟩ := by
      unfold pacerExpected; rw [if_pos (by omega)]
    rw [hEn, hEn1, pacer_step_eval, if_neg Bool.false_ne_true, if_neg (by omega),
        decide_eq_false (by omega), decide_eq_false (by omega)]
  · by_cases hB : n = 299
    · -- the step that fires the first assert
      subst hB; decide
    · have hge : 300 ≤ n := by omega
      by_cases hr0 : n % 300 = 0
      · -- one step after an assert
        have hEn : pacerExpected n = ⟨0, true, 1⟩ := by
          unfold pacerExpected; rw [if_neg (by omega), if_pos hr0]
        have hEn1 : pacerExpected (n + 1) = ⟨1, true, 2⟩ := by
          unfold pacerExpected
          rw [if_neg (by omega), if_neg (by omega), if_pos (by omega)]
        rw [hEn, hEn1, pacer_step_eval, if_pos rfl, if_neg (by omega),
            decide_eq_false (by omega), decide_eq_false (by omega)]
      · by_cases hr1 : n % 300 = 1
        · -- the deassert step
          have hEn : pacerExpected n = ⟨1, true, 2⟩ := by
            unfold pacerExpected; rw [if_neg (by omega), if_neg hr0, if_pos hr1]
          have hEn1 : pacerExpected (n + 1) = ⟨2, false, 3⟩ := by
            unfold pacerExpected
            rw [if_neg (by omega), if_neg (by omega), if_neg (by omega),
                show (n + 1) % 300 = 2 from by omega]
          rw [hEn, hEn1, pacer_step_eval, if_pos rfl, if_pos (by omega),
              decide_eq_false (by omega), decide_eq_true (show _ from by omega)]
        · by_cases hr299 : n % 300 = 299
          · -- end of a later period: the next assert fires
            have hEn : pacerExpected n = ⟨299, false, 3⟩ := by
              unfold pacerExpected
              rw [if_neg (by omega), if_neg hr0, if_neg hr1, hr299]
            have hEn1 : pacerExpected (n + 1) = ⟨0, true, 1⟩ := by
              unfold pacerExpected
              rw [if_neg (by omega), if_pos (by omega)]
            rw [hEn, hEn1, pacer_step_eval, if_neg Bool.false_ne_true,
                if_pos (by omega), decide_eq_true (show _ from by omega),
                decide_eq_false (by omega)]
          · -- quiescent middle of a later period
            have hEn : pacerExpected n = ⟨n % 300, false, 3⟩ := by
              unfold pacerExpected; rw [if_neg (by omega), if_neg hr0, if_neg hr1]
            have hEn1 : pacerExpected (n + 1) = ⟨n % 300 + 1, false, 3⟩ := by
              unfold pacerExpected
              rw [if_neg (by omega), if_neg (by omega), if_neg (by omega),
                  show (n + 1) % 300 = n % 300 + 1 from by omega]
            rw [hEn, hEn1, pacer_step_eval, if_neg Bool.false_ne_true,
                if_neg (by omega), decide_eq_false (by omega),
                decide_eq_false (by omega)]

theorem pacer_run_eq (n : Nat) : pacer_run n = pacerExpected n := by
  induction n with
  | zero => simp [pacer_run, pacerInit, pacerExpected]
  | succ m ih =>
    show (pacer_step (pacer_run m)).1 = _
    rw [ih, pacer_step_expected]

theorem pacer_asserts_eq (m : Nat) :
    pacer_asserts m = decide ((m + 1) % 300 = 0) := by
  unfold pacer_asserts
  rw [pacer_run_eq, pacer_step_expected]

theorem pacer_deasserts_eq (m : Nat) :
    pacer_deasserts m = decide ((m + 1) % 300 = 2 ∧ 300 < m + 1) := by
  unfold pacer_deasserts
  rw [pacer_run_eq, pacer_step_expected]

theorem pacer_assert_count_eq (n : Nat) : pacer_assert_count n = n / 300 := by
  induction n with
  | zero => rfl
  | succ m ih =>
    unfold pacer_assert_count
    rw [List.range_succ, List.countP_append]
    unfold pacer_assert_count at ih
    rw [ih]
    simp only [List.countP_cons, List.countP_nil, pacer_asserts_eq]
    by_cases h : (m + 1) % 300 = 0
    · simp [h]; omega
    · simp [h]; omega

/-! ### Lemmas: handler registers -/

theorem handler_0_op (s : DvgState) : (dvg_handler_0 s).op = s.op := by
  simp only [dvg_handler_0]; split <;> rfl

theorem low_or_high_nibble_mask (a b : Nat) (ha : a < 256) (hb : b < 16) :
    (a ||| (b <<< 8)) &&& 0xf00 = b <<< 8 := by
  have h : ∀ a' < 256, ∀ b' < 16, (a' ||| (b' <<< 8)) &&& 0xf00 = b' <<< 8 := by decide
  exact h a ha b hb

/-! ### Lemmas: bus reads in the program-ROM window -/

theorem read_rom_window (st : EmuState) (a : Nat) (h1 : 0x6800 ≤ a)
    (h2 : a < 0xF800) :
    cpu6502_read_callback st a = asteroid_rom_6k st ((a - 0x6800) % 0x1800) := by
  unfold cpu6502_read_callback
  split_ifs
  all_goals omega

/-! ### Claim theorems -/

/-- C1 (counterexample).  The claim asserts
`read(0x6800 + k) = read(0x6800 + (k mod 0x1800))` for every offset `k` in
the 0x6800-0xFFFF window, "in particular" for 0xF800-0xFFFF.  At
`k = 0x9000` (address 0xF800) the code instead pins the read to the last
2 KB ROM chip (PROM2), so with distinguishable chip contents the mirror
identity fails. -/
theorem rom_mirror_counterexample :
    ¬ cpu6502_read_callback stC1 (0x6800 + 0x9000) =
      cpu6502_read_callback stC1 (0x6800 + 0x9000 % 0x1800) := by
  decide

/-- C1 (amended): for every offset `k` with `0x6800 + k` below the pinned
vector page 0xF800 (that is, `k < 0x9000`), the 6 KB program-ROM image is
mirrored: `read(0x6800 + k) = read(0x6800 + (k mod 0x1800))`.  The top 2 KB
window 0xF800-0xFFFF instead always maps to the PROM2 image, so the mirror
identity holds there only if PROM0 and PROM2 coincide. -/
theorem rom_mirror (st : EmuState) (k : Nat) (hk : k < 0x9000) :
    cpu6502_read_callback st (0x6800 + k) =
    cpu6502_read_callback st (0x6800 + k % 0x1800) := by
  have h1 := read_rom_window st (0x6800 + k) (by omega) (by omega)
  have h2 := read_rom_window st (0x6800 + k % 0x1800) (by omega) (by omega)
  rw [h1, h2]
  have h3 : (0x6800 + k - 0x6800) % 0x1800 = (0x6800 + k % 0x1800 - 0x6800) % 0x1800 := by
    omega
  rw [h3]

/-- C1 (witness): the amended mirror identity at the concrete offset
0x1800. -/
theorem rom_mirror_witness :
    cpu6502_read_callback stC1 (0x6800 + 0x1800) =
    cpu6502_read_callback stC1 (0x6800 + 0x1800 % 0x1800) :=
  rom_mirror stC1 0x1800 (by decide)

/-- C3 (counterexample).  The claim asserts that writing any byte to any RAM
address and reading it back returns that byte.  The deliberate ZP[0x5B]
frame-throttle workaround stores 0 whenever a value of 4 or more is written:
writing 4 to 0x5B reads back 0. -/
theorem ram_write_read_counterexample :
    cpu6502_read_callback (cpu6502_write_callback zeroBytes emu0 0x5B 4) 0x5B = 0 ∧
    ¬ cpu6502_read_callback (cpu6502_write_callback zeroBytes emu0 0x5B 4) 0x5B = 4 := by
  constructor
  · decide
  · decide

/-- C3 (amended): writing a byte `v` to a RAM address (0x0000-0x0FFF) and
immediately reading it back returns `v`, except at the ZP[0x5B] workaround
address, which reads back 0 whenever `4 ≤ v`; writes to the vector-ROM
region 0x5000-0x57FF and to the program-ROM window 0x6800-0xFFFF leave the
whole state unchanged (no-ops). -/
theorem ram_write_read (prom : Nat → Nat) (st : EmuState) (addr v : Nat)
    (ha : addr < 0x1000) (hv : v < 256) :
    cpu6502_read_callback (cpu6502_write_callback prom st addr v) addr
      = (if addr = 0x5B ∧ 4 ≤ v then 0 else v) ∧
    (∀ a, 0x5000 ≤ a → a < 0x5800 → cpu6502_write_callback prom st a v = st) ∧
    (∀ a, 0x6800 ≤ a → cpu6502_write_callback prom st a v = st) := by
  refine ⟨?_, ?_, ?_⟩
  · have hram : (cpu6502_write_callback prom st addr v).ram addr
        = (if addr = 0x5B ∧ 4 ≤ v then 0 else v) % 256 := by
      unfold cpu6502_write_callback
      rw [if_pos ha]
      simp
    unfold cpu6502_read_callback
    rw [if_pos ha, hram]
    split
    · rfl
    · omega
  · intro a h1 h2
    unfold cpu6502_write_callback
    have n1 : ¬ a < 0x1000 := by omega
    have n2 : ¬ (0x4000 ≤ a ∧ a < 0x4800) := by omega
    have n3 : a ≠ 0x3000 := by omega
    have n4 : a ≠ 0x3200 := by omega
    have n5 : a ≠ 0x3400 := by omega
    have n6 : a ≠ 0x3600 := by omega
    have n7 : a ≠ 0x3A00 := by omega
    have n8 : ¬ (0x3C00 ≤ a ∧ a < 0x3C08) := by omega
    have n9 : a ≠ 0x3E00 := by omega
    rw [if_neg n1, if_neg n2, if_neg n3, if_neg n4, if_neg n5, if_neg n6, if_neg n7,
        if_neg n8, if_neg n9]
  · intro a h1
    unfold cpu6502_write_callback
    have m1 : ¬ a < 0x1000 := by omega
    have m2 : ¬ (0x4000 ≤ a ∧ a < 0x4800) := by omega
    have m3 : a ≠ 0x3000 := by omega
    have m4 : a ≠ 0x3200 := by omega
    have m5 : a ≠ 0x3400 := by omega
    have m6 : a ≠ 0x3600 := by omega
    have m7 : a ≠ 0x3A00 := by omega
    have m8 : ¬ (0x3C00 ≤ a ∧ a < 0x3C08) := by omega
    have m9 : a ≠ 0x3E00 := by omega
    rw [if_neg m1, if_neg m2, if_neg m3, if_neg m4, if_neg m5, if_neg m6, if_neg m7,
        if_neg m8, if_neg m9]

/-- C3 (witness): writing 0xAB to RAM address 0x10 reads back 0xAB, and a
write to ROM address 0x6800 changes nothing. -/
theorem ram_write_read_witness :
    cpu6502_read_callback (cpu6502_write_callback zeroBytes emu0 0x10 0xAB) 0x10 = 0xAB ∧
    cpu6502_write_callback zeroBytes emu0 0x6800 0xAB = emu0 := by
  have h := ram_write_read zeroBytes emu0 0x10 0xAB (by decide) (by decide)
  exact ⟨by simpa using h.1, h.2.2 0x6800 (by decide)⟩

/-- C8 (counterexample).  The claim asserts that the byte returned from an
input-port read has the selected input's state in its designated bit and
"all other bits of the returned byte are fixed to 1".  With the hyperspace
button held, reading 0x2003 returns 0x80: the selected bit (bit 7) is 1 but
bits 0-6 are all 0, not 1. -/
theorem input_port_counterexample :
    (in0_byte stC8 >>> 3) &&& 1 = 1 ∧
    cpu6502_read_callback stC8 0x2003 = 0x80 ∧
    ¬ cpu6502_read_callback stC8 0x2003 &&& 0x7F = 0x7F := by
  decide

/-- C8 (amended): for every IN0 address (0x2000-0x2007) and every IN1
address (0x2400-0x2407), the returned byte's bit 7 equals the state of the
logical input selected by the address's low 3 bits, and the remaining seven
bits are the complement of bit 7 (the read returns 0x80 or 0x7F); the result
is a function of the sampled input state alone. -/
theorem input_port_read (st : EmuState) (addr : Nat) :
    (0x2000 ≤ addr → addr < 0x2008 →
      cpu6502_read_callback st addr >>> 7 = (in0_byte st >>> (addr &&& 0x07)) &&& 1 ∧
      cpu6502_read_callback st addr &&& 0x7F =
        (if (in0_byte st >>> (addr &&& 0x07)) &&& 1 = 1 then 0 else 0x7F)) ∧
    (0x2400 ≤ addr → addr < 0x2408 →
      cpu6502_read_callback st addr >>> 7 = (in1_byte st >>> (addr &&& 0x07)) &&& 1 ∧
      cpu6502_read_callback st addr &&& 0x7F =
        (if (in1_byte st >>> (addr &&& 0x07)) &&& 1 = 1 then 0 else 0x7F)) := by
  constructor
  · intro h1 h2
    have hb : (in0_byte st >>> (addr &&& 0x07)) &&& 1 = 0 ∨
        (in0_byte st >>> (addr &&& 0x07)) &&& 1 = 1 := by
      have := Nat.and_le_right (n := in0_byte st >>> (addr &&& 0x07)) (m := 1)
      omega
    unfold cpu6502_read_callback
    have k1 : ¬ addr < 0x1000 := by omega
    have k2 : ¬ (0x4000 ≤ addr ∧ addr < 0x4800) := by omega
    have k3 : ¬ (0x5000 ≤ addr ∧ addr < 0x5800) := by omega
    have k4 : 0x2000 ≤ addr ∧ addr < 0x2008 := by omega
    rw [if_neg k1, if_neg k2, if_neg k3, if_pos k4]
    rcases hb with hb | hb
    · rw [hb, if_neg (by omega), if_neg (by omega)]
      exact ⟨rfl, rfl⟩
    · rw [hb, if_pos rfl, if_pos rfl]
      exact ⟨rfl, rfl⟩
  · intro h1 h2
    have hb : (in1_byte st >>> (addr &&& 0x07)) &&& 1 = 0 ∨
        (in1_byte st >>> (addr &&& 0x07)) &&& 1 = 1 := by
      have := Nat.and_le_right (n := in1_byte st >>> (addr &&& 0x07)) (m := 1)
      omega
    unfold cpu6502_read_callback
    have l1 : ¬ addr < 0x1000 := by omega
    have l2 : ¬ (0x4000 ≤ addr ∧ addr < 0x4800) := by omega
    have l3 : ¬ (0x5000 ≤ addr ∧ addr < 0x5800) := by omega
    have l4 : ¬ (0x2000 ≤ addr ∧ addr < 0x2008) := by omega
    have l5 : 0x2400 ≤ addr ∧ addr < 0x2408 := by omega
    rw [if_neg l1, if_neg l2, if_neg l3, if_neg l4, if_pos l5]
    rcases hb with hb | hb
    · rw [hb, if_neg (by omega), if_neg (by omega)]
      exact ⟨rfl, rfl⟩
    · rw [hb, if_pos rfl, if_pos rfl]
      exact ⟨rfl, rfl⟩

/-- C8 (witness): the amended input-port property at 0x2003 with hyperspace
held. -/
theorem input_port_read_witness :
    cpu6502_read_callback stC8 0x2003 >>> 7 = (in0_byte stC8 >>> (0x2003 &&& 0x07)) &&& 1 :=
  ((input_port_read stC8 0x2003).1 (by decide) (by decide)).1

/-- C5: a subroutine call (handler 0 push with an even opcode, then the
handler 1 jump) immediately followed by a return (handler 1 pop with an odd
opcode) restores the program counter to the value pushed at the call - the
address of the instruction after the call, since the operand latches have
already advanced the counter - and restores the stack depth.  The state `m`
at the return is arbitrary except that the subroutine's instruction latching
does not touch the stack or the stack pointer. -/
theorem call_return_restores (s m : DvgState) (t : Nat)
    (hcall : s.op &&& 1 = 0) (hret : t &&& 1 = 1)
    (hsp : s.stack_ptr < 16) (hpc : s.pc < 65536)
    (hstk : m.stack = (dvg_handler_1 (dvg_handler_0 s)).stack)
    (hsp2 : m.stack_ptr = (dvg_handler_1 (dvg_handler_0 s)).stack_ptr)
    (hop : m.op = t) :
    (dvg_handler_1 m).pc = s.pc ∧ (dvg_handler_1 m).stack_ptr = s.stack_ptr := by
  have hjump : (dvg_handler_1 (dvg_handler_0 s)).stack = (dvg_handler_0 s).stack ∧
      (dvg_handler_1 (dvg_handler_0 s)).stack_ptr = (dvg_handler_0 s).stack_ptr := by
    unfold dvg_handler_1
    rw [if_neg (by rw [handler_0_op]; omega)]
    exact ⟨rfl, rfl⟩
  have hpush : (dvg_handler_0 s).stack_ptr = (s.stack_ptr + 1) % 16 ∧
      (dvg_handler_0 s).stack =
        fun i => if i = (((s.stack_ptr + 1) % 16) &&& 3) then s.pc else s.stack i := by
    unfold dvg_handler_0
    rw [if_pos hcall]
    exact ⟨rfl, rfl⟩
  unfold dvg_handler_1
  rw [if_pos (by rw [hop]; exact hret)]
  constructor
  · show m.stack (m.stack_ptr &&& 3) % 65536 = s.pc
    rw [hstk, hsp2, hjump.1, hjump.2, hpush.2, hpush.1]
    simp only [eq_self_iff_true, if_true]
    omega
  · show (m.stack_ptr + 15) % 16 = s.stack_ptr
    rw [hsp2, hjump.2, hpush.1]
    omega

/-- C5 (witness): the call/return round trip at pc = 0x123 with an empty
stack. -/
theorem call_return_restores_witness :
    (dvg_handler_1 mC5).pc = 0x123 ∧ (dvg_handler_1 mC5).stack_ptr = 0 :=
  call_return_restores sC5 mC5 0x5 (by decide) (by decide) (by decide) (by decide)
    rfl rfl rfl

/-- C6 (counterexample).  The claim asserts that stack entries created by
the first 4 (within-capacity) nested calls are not overwritten by excess
calls.  Starting from an empty stack, the first call stores its return
address 0x100 in slot 1; the fifth call wraps around and overwrites that
same slot with 0x500. -/
theorem stack_overflow_counterexample :
    sC6_1.stack 1 = 0x100 ∧ sC6_5.stack 1 = 0x500 ∧
    ¬ sC6_5.stack 1 = sC6_1.stack 1 := by
  decide

/-- C6 (amended): the subroutine stack wraps modulo its 4-slot capacity, so
excess nested calls overwrite the oldest in-capacity entries; what does hold
is memory safety: a push only writes the slot `(sp + 1) & 0xf & 3 < 4`, a
pop writes no stack storage at all, and no run of the state machine (of any
length, under any sequencer PROM and memory) ever modifies storage outside
slots 0-3. -/
theorem stack_accesses_in_bounds (prom vram vrom : Nat → Nat) (s : DvgState)
    (n : Nat) (j : Nat) (hj : 4 ≤ j) :
    (((s.stack_ptr + 1) % 16) &&& 3) < 4 ∧
    (dvg_handler_0 s).stack j = s.stack j ∧
    (dvg_handler_1 s).stack = s.stack ∧
    (dvg_iter prom vram vrom n s).stack j = s.stack j ∧
    (dvg_run_state_machine prom vram vrom s).stack j = s.stack j := by
  refine ⟨?_, handler_0_stack_high s j hj, handler_1_stack s,
    iter_stack_high prom vram vrom n s j hj, run_stack_high prom vram vrom s j hj⟩
  have := Nat.and_le_right (n := (s.stack_ptr + 1) % 16) (m := 3)
  omega

/-- C6 (witness): in-bounds behaviour at a concrete state and slot 4. -/
theorem stack_accesses_in_bounds_witness :
    (dvg_handler_0 sC6).stack 4 = sC6.stack 4 ∧
    (dvg_run_state_machine promHalt zeroBytes zeroBytes sC6).stack 4 = sC6.stack 4 :=
  ⟨(stack_accesses_in_bounds promHalt zeroBytes zeroBytes sC6 0 4 (by decide)).2.1,
   (stack_accesses_in_bounds promHalt zeroBytes zeroBytes sC6 0 4 (by decide)).2.2.2.2⟩

/-- C7 (counterexample).  The claim asserts that when handler 5 latches the
sentinel opcode 0xf, "the high bits of both the X-delta and the Y-delta
registers are cleared".  With data byte 0xff (new opcode 0xf) and
`dvx = 0xfff`, the handler leaves `dvx = 0xf00`: the high bits 8-11 are
still set - it is the low byte that was cleared. -/
theorem latch1_counterexample :
    (dvg_handler_5 sC7).op = 0xf ∧
    (dvg_handler_5 sC7).dvx = 0xf00 ∧ ¬ (dvg_handler_5 sC7).dvx >>> 8 = 0 ∧
    (dvg_handler_5 sC7).dvy = 0xf00 ∧ ¬ (dvg_handler_5 sC7).dvy >>> 8 = 0 := by
  decide

/-- C7 (amended): handler 5 merges the data byte's low nibble into the high
bits of `dvy` and latches the high nibble as the new opcode; when the new
opcode is the sentinel 0xf it clears the LOW bytes (bits 0-7) of both delta
registers, keeping the high bits: `dvy` keeps exactly the just-latched high
nibble and `dvx` keeps its bits 8-11. -/
theorem latch1_latches_op_and_high_y (s : DvgState) :
    (dvg_handler_5 s).op = (s.data >>> 4) % 256 ∧
    (dvg_handler_5 s).dvy =
      (if (s.data >>> 4) % 256 = 0xf then (s.data &&& 0xf) <<< 8
       else (s.dvy &&& 0xff) ||| ((s.data &&& 0xf) <<< 8)) ∧
    (dvg_handler_5 s).dvx =
      (if (s.data >>> 4) % 256 = 0xf then s.dvx &&& 0xf00 else s.dvx) := by
  unfold dvg_handler_5
  by_cases h : (s.data >>> 4) % 256 = 0xf
  · rw [if_pos h, if_pos h, if_pos h]
    refine ⟨rfl, ?_, rfl⟩
    show ((s.dvy &&& 0xff) ||| ((s.data &&& 0xf) <<< 8)) &&& 0xf00 = (s.data &&& 0xf) <<< 8
    have h1 : s.dvy &&& 0xff < 256 := by
      have := Nat.and_le_right (n := s.dvy) (m := 0xff)
      omega
    have h2 : s.data &&& 0xf < 16 := by
      have := Nat.and_le_right (n := s.data) (m := 0xf)
      omega
    exact low_or_high_nibble_mask (s.dvy &&& 0xff) (s.data &&& 0xf) h1 h2
  · rw [if_neg h, if_neg h, if_neg h]
    exact ⟨rfl, rfl, rfl⟩

/-- C2 (counterexample).  The claim asserts that activating the vector
generator on a memory holding a single zero-delta draw instruction yields
exactly ONE sample.  Under a sequencer table that drives the halt-strobe
handler, activation on the all-zero draw program yields TWO samples (the
zero-intensity start point that `dvg_add_vector` always prepends, then the
endpoint), never one. -/
theorem dvg_go_counterexample :
    (cpu6502_write_callback promHalt emu0 0x3000 0).dvg.samples
      = [(512, 512, 0), (512, 512, 0)] ∧
    ¬ (cpu6502_write_callback promHalt emu0 0x3000 0).dvg.samples.length = 1 := by
  decide

/-- C2 (amended): activating the vector generator (a write to the DVG GO
port 0x3000) can never produce a sample list with exactly one entry - under
every sequencer-PROM table, memory content and prior state, the first
emitted endpoint is always preceded by a start-point sample, so the
resulting SampleList is either empty or holds at least two samples - and
after the bounded run the machine is no longer running. -/
theorem dvg_go_sample_count (prom : Nat → Nat) (st : EmuState) (v : Nat) :
    ¬ (cpu6502_write_callback prom st 0x3000 v).dvg.samples.length = 1 ∧
    (cpu6502_write_callback prom st 0x3000 v).dvg.running = false := by
  have hw : cpu6502_write_callback prom st 0x3000 v =
      { st with dvg := dvg_run_state_machine prom st.vram st.vrom (dvg_go_init st v) } := by
    unfold cpu6502_write_callback
    rw [if_neg (by omega), if_neg (by omega), if_pos rfl]
    rfl
  have hinit : samplesOk (dvg_go_init st v).samples := by
    simp [dvg_go_init, samplesOk]
  rw [hw]
  constructor
  · exact samplesOk_length _ (samplesOk_run _ _ _ _ hinit)
  · show (dvg_run_state_machine prom st.vram st.vrom _).running = false
    unfold dvg_run_state_machine
    rw [if_neg (by simp [dvg_go_init])]

/-- C4: the refinement claim fails, as the spec itself records.  On the
concrete vector memory `vramC4` (one full-brightness zero-delta SVEC, then
HALT), the direct-opcode interpreter `dvg_execute` and the PROM-sequenced
interpreter `dvg_run_state_machine` - started from the same initial state -
produce different sample lists, under EVERY sequencer-PROM table: the direct
interpreter emits a first sample with intensity 255, while the PROM machine
either emits nothing or starts with the zero-intensity start point. -/
theorem interpreters_disagree (prom : Nat → Nat) :
    (dvg_execute vramC4 zeroBytes dvg_init).samples
        = [(2049, 2049, 255), (2049, 2049, 255)] ∧
    ¬ (dvg_run_state_machine prom vramC4 zeroBytes dvg_init).samples
        = (dvg_execute vramC4 zeroBytes dvg_init).samples := by
  have hexec : (dvg_execute vramC4 zeroBytes dvg_init).samples
      = [(2049, 2049, 255), (2049, 2049, 255)] := by decide
  refine ⟨hexec, fun heq => ?_⟩
  have hok : samplesOk (dvg_run_state_machine prom vramC4 zeroBytes dvg_init).samples :=
    samplesOk_run _ _ _ _ trivial
  rw [heq, hexec] at hok
  simp [samplesOk] at hok

/-- C9: for every sequencer-PROM table, memory content and start state, the
Running loop of the vector generator terminates within the fixed safety
ceiling - the run equals at most 1000 (≤ 10,000) iterations of the loop
body, stopping early at a halt - and afterwards the machine reports not
running (implicit halt, samples retained), never crashing or looping
forever. -/
theorem dvg_run_terminates (prom vram vrom : Nat → Nat) (s : DvgState) :
    (dvg_run_state_machine prom vram vrom s).running = false ∧
    dvg_run_state_machine prom vram vrom { s with running := true } =
      { dvg_iter prom vram vrom 1000 { s with running := true, halt := false }
        with running := false } := by
  constructor
  · unfold dvg_run_state_machine
    split
    · assumption
    · rfl
  · unfold dvg_run_state_machine
    rw [if_neg (by simp)]
    rw [run_loop_eq_iter prom vram vrom 1000 0 _ (by omega)]

/-- C10 (counterexample).  The claim asserts that each NMI assertion is
followed by a deassertion exactly 3 steps later.  The assertion fired on
step 300 (index 299) is deasserted on step 302 (index 301) - two steps
later, not three: the release counter of 3 counts the asserting step
itself. -/
theorem pacer_counterexample :
    pacer_asserts 299 = true ∧ pacer_deasserts 301 = true ∧
    pacer_deasserts 302 = false := by
  refine ⟨?_, ?_, ?_⟩
  · rw [pacer_asserts_eq]; decide
  · rw [pacer_deasserts_eq]; decide
  · rw [pacer_deasserts_eq]; decide

/-- C10 (amended): over any run of N CPU steps the pacer asserts the NMI
line exactly floor(N / 300) times - once each time the instruction counter
reaches the threshold 300, resetting the counter - and each assertion (at
step indices m with (m+1) divisible by 300) is followed by a deassertion
exactly 2 steps later (at indices with (m+1) mod 300 = 2): the release
constant 3 counts the asserting step itself. -/
theorem pacer_timing (n m : Nat) :
    pacer_assert_count n = n / 300 ∧
    pacer_asserts m = decide ((m + 1) % 300 = 0) ∧
    pacer_deasserts m = decide ((m + 1) % 300 = 2 ∧ 300 < m + 1) :=
  ⟨pacer_assert_count_eq n, pacer_asserts_eq m, pacer_deasserts_eq m⟩

end Asteroidino
